import Mathlib

/-!
Verification of the USAVibes map frontend (src/frontend/app.js).

The file gives a shallow embedding of the script's layer registry, data
client, presentation mapping and refresh orchestration, and proves theorems
checking the specification's claims about them.  The network and the DOM are
oracles: each issued query is answered by a transport response supplied in an
`Env` record, and the page state the script mutates (the cluster groups, the
status line) is threaded explicitly as an `AppState` value.
-/

namespace USAVibes

/-- The four dataset keys, one per entry of the `clusters` table in app.js
(`mcd`, `starbucks`, `dg`, `quakes`). -/
inductive Key where
  | mcd
  | starbucks
  | dg
  | quakes
deriving DecidableEq

/-- A rendered map point: `L.marker([lat, lon])` with an optional popup, or
`L.circleMarker([lat, lon], {radius, weight, fillOpacity})` with a popup.
A `radius` of `none` models the JavaScript value NaN, which arises when the
magnitude is absent (`'?' * 2` is NaN). -/
inductive VisualPoint where
  | marker (lat lon : ℚ) (popup : Option String)
  | circle (lat lon : ℚ) (radius : Option ℚ) (weight : ℚ) (fillOpacity : ℚ) (popup : String)
deriving DecidableEq

/-- One Leaflet marker-cluster group as the model sees it: the markers it
currently holds, and whether it is attached to the map (`map.hasLayer`). -/
structure LayerState where
  markers : List VisualPoint
  onMap : Bool
deriving DecidableEq

/-- The `clusters` table of app.js: one cluster group per dataset. -/
structure Clusters where
  mcd : LayerState
  starbucks : LayerState
  dg : LayerState
  quakes : LayerState
deriving DecidableEq

/-- `clusters[key]`. -/
def Clusters.get (c : Clusters) (k : Key) : LayerState :=
  match k with
  | Key.mcd => c.mcd
  | Key.starbucks => c.starbucks
  | Key.dg => c.dg
  | Key.quakes => c.quakes

/-- Replace the group stored at `key`. -/
def Clusters.set (c : Clusters) (k : Key) (v : LayerState) : Clusters :=
  match k with
  | Key.mcd => { c with mcd := v }
  | Key.starbucks => { c with starbucks := v }
  | Key.dg => { c with dg := v }
  | Key.quakes => { c with quakes := v }

/-- The page state the refresh logic manipulates: the cluster groups plus the
one-line status element. -/
structure AppState where
  clusters : Clusters
  status : String
deriving DecidableEq

/-- `setStatus(msg)` from app.js. -/
def setStatus (s : AppState) (msg : String) : AppState := { s with status := msg }

/-- The two failure kinds a query can produce: a non-ok transport response
(`throw new Error(r.status + ' ' + r.statusText)` in `fetchJSON`) or a body
that does not parse (`r.json()` rejecting). -/
inductive FetchError where
  | queryFailed (status : Nat) (statusText : String)
  | parseFailed (msg : String)
deriving DecidableEq

/-- The `e.message` of the thrown error, as consumed by
`setStatus('Error: ' + e.message)` in the catch block of `refresh`. -/
def errMessage : FetchError → String
  | FetchError.queryFailed st txt => toString st ++ " " ++ txt
  | FetchError.parseFailed m => m

/-- A transport response as `fetchJSON` observes it: the `ok` flag, the
numeric status, the status text, and the outcome of parsing the body
(`r.json()` resolves with a value or rejects with a message). -/
structure HttpResponse (α : Type) where
  ok : Bool
  status : Nat
  statusText : String
  body : Except String α

/-- `fetchJSON(url)` from app.js, with the transport response as oracle
input: `if (!r.ok) throw new Error(r.status + ' ' + r.statusText); return r.json()`. -/
def fetchJSON {α : Type} (r : HttpResponse α) : Except FetchError α :=
  if !r.ok then Except.error (FetchError.queryFailed r.status r.statusText)
  else
    match r.body with
    | Except.error m => Except.error (FetchError.parseFailed m)
    | Except.ok v => Except.ok v

/-- The error component of a query outcome, if any. -/
def errOf {ε α : Type} : Except ε α → Option ε
  | Except.error e => some e
  | Except.ok _ => none

/-- A feature geometry as the code reads it: the `type` tag and the first two
entries of `coordinates`, which is all the code ever destructures
(`const [lon, lat] = …`).  A missing or null geometry object is modelled by
`Option` at the use sites; a geometry whose `coordinates` is a flat numeric
array is modelled exactly, which is all the theorems evaluate. -/
structure Geometry where
  type : String
  lon : ℚ
  lat : ℚ
deriving DecidableEq

/-- Brand feature properties; `Option` models an absent (or null) field. -/
structure BrandProps where
  name : Option String
  id : Option String
deriving DecidableEq

structure BrandFeature where
  geometry : Option Geometry
  properties : Option BrandProps
deriving DecidableEq

/-- A parsed brand response document; `gj.features` may be absent. -/
structure BrandGJ where
  features : Option (List BrandFeature)
deriving DecidableEq

/-- Seismic feature properties: magnitude, place text, epoch-millisecond
timestamp; `Option` models an absent (or null) field. -/
structure QuakeProps where
  mag : Option ℚ
  place : Option String
  time : Option Int
deriving DecidableEq

structure QuakeFeature where
  geometry : Option Geometry
  properties : Option QuakeProps
deriving DecidableEq

structure QuakeGJ where
  features : Option (List QuakeFeature)
deriving DecidableEq

/-- `f.properties?.name`. -/
def BrandFeature.nameProp (f : BrandFeature) : Option String :=
  f.properties.bind (fun p => p.name)

/-- `f.properties?.id`. -/
def BrandFeature.idProp (f : BrandFeature) : Option String :=
  f.properties.bind (fun p => p.id)

/-- `f.properties?.mag`. -/
def QuakeFeature.magProp (f : QuakeFeature) : Option ℚ :=
  f.properties.bind (fun p => p.mag)

/-- `f.properties?.place`. -/
def QuakeFeature.placeProp (f : QuakeFeature) : Option String :=
  f.properties.bind (fun p => p.place)

/-- `f.properties?.time`. -/
def QuakeFeature.timeProp (f : QuakeFeature) : Option Int :=
  f.properties.bind (fun p => p.time)

/-- Value of a run of decimal digit characters. -/
def digitsVal (cs : List Char) : Nat :=
  cs.foldl (fun a c => 10 * a + (c.toNat - 48)) 0

/-- JavaScript `Number(string)` on the forms that occur here: optional
surrounding whitespace, an optional sign, and a plain decimal literal
(`"12"`, `"2.5"`, `".5"`, `"3."`); a whitespace-only string is 0, as in
JavaScript.  Anything else is NaN, modelled as `none` (hexadecimal, exponent
and `Infinity` forms are left out; no claim involves them). -/
def strToNumber (s : String) : Option ℚ :=
  let cs1 := s.toList.dropWhile Char.isWhitespace
  let cs := (cs1.reverse.dropWhile Char.isWhitespace).reverse
  if cs.isEmpty then some 0
  else
    let sgn : ℚ := match cs with
      | '-' :: _ => -1
      | _ => 1
    let cs2 := match cs with
      | '-' :: r => r
      | '+' :: r => r
      | _ => cs
    let ip := cs2.takeWhile Char.isDigit
    let rest := cs2.dropWhile Char.isDigit
    match rest with
    | [] => if ip.isEmpty then none else some (sgn * (digitsVal ip : ℚ))
    | '.' :: fr =>
      let fp := fr.takeWhile Char.isDigit
      if (fr.dropWhile Char.isDigit).isEmpty then
        if ip.isEmpty && fp.isEmpty then none
        else some (sgn * ((digitsVal ip : ℚ) + (digitsVal fp : ℚ) / ((10 : ℚ) ^ fp.length)))
      else none
    | _ => none

/-- `Number(qHours.value || 24)` from `loadQuakes`: an empty (falsy) input
falls back to the number 24 before coercion; any other string goes through
`Number`, so a non-numeric entry yields NaN (`none`), not the default. -/
def effectiveHours (v : String) : Option ℚ :=
  if v = "" then some 24 else strToNumber v

/-- `Number(qMinMag.value || 2.5)` from `loadQuakes`. -/
def effectiveMinmag (v : String) : Option ℚ :=
  if v = "" then some (5 / 2) else strToNumber v

/-- JavaScript `x || d` for a possibly-absent string: the empty string is the
only falsy string, so both a missing value and `""` fall back to `d`. -/
def jsOrStr (v : Option String) (d : String) : String :=
  match v with
  | none => d
  | some s => if s = "" then d else s

def strEmpty : String := ""
def strUnknown : String := "Unknown"
def strPoint : String := "Point"

/-- `f.properties?.name || 'Unknown'` (popup callback in `loadBrand`). -/
def brandNameText (f : BrandFeature) : String := jsOrStr f.nameProp strUnknown

/-- `f.properties?.id || ''`. -/
def brandIdText (f : BrandFeature) : String := jsOrStr f.idProp strEmpty

/-- The brand popup html: `<b>${name}</b><br><small>${id}</small>`. -/
def brandPopup (f : BrandFeature) : String :=
  "<b>" ++ brandNameText f ++ "</b><br><small>" ++ brandIdText f ++ "</small>"

/-- The body of the `forEach` in `addGeoJSONPointsToCluster`: skip a feature
whose geometry is missing or whose geometry type is not `"Point"`, otherwise
build a marker at `[lat, lon]`, binding the popup when a callback was given
(`if (popupFn) m.bindPopup(popupFn(f))`). -/
def brandFeaturePoint (popupFn : Option (BrandFeature → String)) (f : BrandFeature) :
    Option VisualPoint :=
  match f.geometry with
  | none => none
  | some g =>
    if g.type ≠ strPoint then none
    else some (VisualPoint.marker g.lat g.lon (popupFn.map (fun pf => pf f)))

/-- `addGeoJSONPointsToCluster(gj, clusterKey, popupFn)`: iterate
`gj.features || []` and append one marker per usable feature to the keyed
cluster group. -/
def addGeoJSONPointsToCluster (gj : BrandGJ) (clusterKey : Key)
    (popupFn : Option (BrandFeature → String)) (c : Clusters) : Clusters :=
  c.set clusterKey
    { c.get clusterKey with
      markers :=
        (c.get clusterKey).markers ++ (gj.features.getD []).filterMap (brandFeaturePoint popupFn) }

/-- JavaScript number-to-string as used in the popup template literals; exact
on the integral values the theorems evaluate, non-integral rationals are
rendered as their reduced fraction (no claim inspects those). -/
def jsNumToString (q : ℚ) : String :=
  if q.den = 1 then toString q.num else toString q

def strZero : String := "0"

/-- Two-digit zero-padded rendering of minutes and seconds. -/
def pad2 (n : Nat) : String :=
  if n < 10 then strZero ++ toString n else toString n

/-- Gregorian civil date (year, month, day) from a count of days since
1970-01-01, following Hinnant's civil-from-days algorithm with truncating
integer division, exactly as in its reference form. -/
def civilFromDays (z0 : Int) : Int × Int × Int :=
  let z := z0 + 719468
  let era := Int.tdiv (if z ≥ 0 then z else z - 146096) 146097
  let doe := z - era * 146097
  let yoe := Int.tdiv (doe - Int.tdiv doe 1460 + Int.tdiv doe 36524 - Int.tdiv doe 146096) 365
  let y := yoe + era * 400
  let doy := doe - (365 * yoe + Int.tdiv yoe 4 - Int.tdiv yoe 100)
  let mp := Int.tdiv (5 * doy + 2) 153
  let d := doy - Int.tdiv (153 * mp + 2) 5 + 1
  let m := mp + (if mp < 10 then 3 else -9)
  (if m ≤ 2 then y + 1 else y, m, d)

def strSlash : String := "/"
def strCommaSp : String := ", "
def strColon : String := ":"
def strSp : String := " "
def strAM : String := "AM"
def strPM : String := "PM"

/-- `new Date(t).toLocaleString()` for an epoch-milliseconds value, modelled
as the en-US rendering in UTC: `M/D/YYYY, h:mm:ss AM`.  The host's locale and
timezone vary, but every real rendering of a valid date is a non-empty
date-and-time string; the claims rely only on that and on the value at 0. -/
def jsDateToLocaleString (t : Int) : String :=
  let days := Int.fdiv t 86400000
  let msOfDay := (t - days * 86400000).toNat
  let ymd := civilFromDays days
  let h24 := msOfDay / 3600000
  let mi := msOfDay / 60000 % 60
  let se := msOfDay / 1000 % 60
  let h12 := if h24 % 12 = 0 then 12 else h24 % 12
  let ap := if h24 < 12 then strAM else strPM
  toString ymd.2.1 ++ strSlash ++ toString ymd.2.2 ++ strSlash ++ toString ymd.1 ++
    strCommaSp ++ toString h12 ++ strColon ++ pad2 mi ++ strColon ++ pad2 se ++ strSp ++ ap

def strQm : String := "?"

/-- `f.properties?.mag ?? '?'` rendered into the popup (`??` fires only on
null/undefined, so a magnitude of 0 renders as `0`). -/
def magText (f : QuakeFeature) : String :=
  match f.magProp with
  | none => strQm
  | some m => jsNumToString m

/-- `f.properties?.place ?? ''`. -/
def placeText (f : QuakeFeature) : String :=
  match f.placeProp with
  | none => strEmpty
  | some p => p

/-- `f.properties?.time ? new Date(f.properties.time).toLocaleString() : ''` —
a truthiness test on the number, so the epoch value 0 also yields the empty
string. -/
def timeText (f : QuakeFeature) : String :=
  match f.timeProp with
  | none => strEmpty
  | some t => if t = 0 then strEmpty else jsDateToLocaleString t

/-- The seismic popup: `<b>M ${mag}</b><br>${place}<br><small>${time}</small>`. -/
def quakePopup (f : QuakeFeature) : String :=
  "<b>M " ++ magText f ++ "</b><br>" ++ placeText f ++ "<br><small>" ++ timeText f ++ "</small>"

/-- `Math.max(4, Math.min(16, mag * 2))`; `none` (NaN, from an absent
magnitude) propagates through `Math.min`/`Math.max` as in JavaScript. -/
def quakeRadius (mag : Option ℚ) : Option ℚ :=
  match mag with
  | none => none
  | some m => some (max 4 (min 16 (m * 2)))

/-- The body of the `forEach` in `loadQuakes`: skip when
`f.geometry?.coordinates` is missing, otherwise a circle marker at
`[lat, lon]` with the derived radius, weight 1, fill opacity 0.6 and the
seismic popup.  There is no geometry-type test on this path. -/
def quakeFeaturePoint (f : QuakeFeature) : Option VisualPoint :=
  match f.geometry with
  | none => none
  | some g =>
    some (VisualPoint.circle g.lat g.lon (quakeRadius f.magProp) 1 (3 / 5) (quakePopup f))

/-- The marker-adding loop of `loadQuakes` over `gj.features || []`. -/
def addQuakePoints (gj : QuakeGJ) (c : Clusters) : Clusters :=
  c.set Key.quakes
    { c.get Key.quakes with
      markers := (c.get Key.quakes).markers ++ (gj.features.getD []).filterMap quakeFeaturePoint }

/-- `clearLayer(key)`: `clearLayers()` empties the group, then the group is
detached from the map when currently attached. -/
def clearLayer (key : Key) (c : Clusters) : Clusters :=
  let st := { c.get key with markers := ([] : List VisualPoint) }
  let st2 := if st.onMap then { st with onMap := false } else st
  c.set key st2

/-- `ensureLayer(key)`: attach the group when not already attached. -/
def ensureLayer (key : Key) (c : Clusters) : Clusters :=
  if (c.get key).onMap then c else c.set key { c.get key with onMap := true }

def brandMcd : String := "mcdonalds"
def brandStarbucks : String := "starbucks"
def brandDG : String := "dollargeneral"

/-- The external world as one refresh sees it: for each issued query the
transport response — brand responses keyed by the brand identifier, the
seismic response keyed by the effective `(hours, minmag)` pair it is issued
with — plus the two filter input fields (the bounding box parameter does not
discriminate within one refresh and is absorbed into the oracle). -/
structure Env where
  brandResp : String → HttpResponse BrandGJ
  quakesResp : Option ℚ × Option ℚ → HttpResponse QuakeGJ
  hoursValue : String
  minmagValue : String

def msgLoading (brand : String) : String := "Loading " ++ brand ++ "..."
def msgLoaded (brand : String) (n : Nat) : String :=
  "Loaded " ++ brand ++ ": " ++ toString n
def msgLoadingQuakes : String := "Loading earthquakes..."
def msgLoadedQuakes (n : Nat) : String := "Loaded earthquakes: " ++ toString n
def strDone : String := "Done."
def strErrorPrefix : String := "Error: "

/-- `loadBrand(brand, clusterKey)`: set the loading status, fetch, add the
points, attach the layer, set the loaded status (`gj.features?.length || 0`).
A fetch failure is a thrown error: the `Except.error` carries it together
with the state at the throw point (the status update precedes the fetch). -/
def loadBrand (env : Env) (brand : String) (clusterKey : Key) (s : AppState) :
    Except (FetchError × AppState) AppState :=
  let s1 := setStatus s (msgLoading brand)
  match fetchJSON (env.brandResp brand) with
  | Except.error e => Except.error (e, s1)
  | Except.ok gj =>
    let s2 := { s1 with clusters := addGeoJSONPointsToCluster gj clusterKey (some brandPopup) s1.clusters }
    let s3 := { s2 with clusters := ensureLayer clusterKey s2.clusters }
    Except.ok (setStatus s3 (msgLoaded brand ((gj.features.getD []).length)))

/-- `loadQuakes()`: coerce the two filter inputs, set the loading status,
fetch with the effective `(hours, minmag)` pair, add the circle markers,
attach the quakes layer, set the loaded status. -/
def loadQuakes (env : Env) (s : AppState) : Except (FetchError × AppState) AppState :=
  let hours := effectiveHours env.hoursValue
  let minmag := effectiveMinmag env.minmagValue
  let s1 := setStatus s msgLoadingQuakes
  match fetchJSON (env.quakesResp (hours, minmag)) with
  | Except.error e => Except.error (e, s1)
  | Except.ok gj =>
    let s2 := { s1 with clusters := addQuakePoints gj s1.clusters }
    let s3 := { s2 with clusters := ensureLayer Key.quakes s2.clusters }
    Except.ok (setStatus s3 (msgLoadedQuakes ((gj.features.getD []).length)))

/-- The four layer checkboxes, read-only for the refresh logic. -/
structure Toggles where
  mcd : Bool
  starbucks : Bool
  dg : Bool
  quakes : Bool
deriving DecidableEq

/-- The checkbox for a dataset key. -/
def toggle (tog : Toggles) : Key → Bool
  | Key.mcd => tog.mcd
  | Key.starbucks => tog.starbucks
  | Key.dg => tog.dg
  | Key.quakes => tog.quakes

/-- The fixed load order of `refresh`: brand-A, brand-B, brand-C, seismic. -/
def loadOrder : List Key := [Key.mcd, Key.starbucks, Key.dg, Key.quakes]

/-- The toggled-on datasets, in the fixed load order. -/
def toggledKeys (tog : Toggles) : List Key := loadOrder.filter (toggle tog)

/-- The cleared group: no markers, detached. -/
def clearedLayer : LayerState := { markers := [], onMap := false }

/-- The clearing phase of `refresh`: `if (!checked) clearLayer(key)` for each
of the four datasets, in order; toggled-on groups are not touched. -/
def clearPhase (tog : Toggles) (c : Clusters) : Clusters :=
  let c1 := if !tog.mcd then clearLayer Key.mcd c else c
  let c2 := if !tog.starbucks then clearLayer Key.starbucks c1 else c1
  let c3 := if !tog.dg then clearLayer Key.dg c2 else c2
  if !tog.quakes then clearLayer Key.quakes c3 else c3

/-- The catch block of `refresh`: `setStatus('Error: ' + e.message)` (the
`console.error` diagnostic log has no modelled effect). -/
def errorStatus (e : FetchError) (s : AppState) : AppState :=
  setStatus s (strErrorPrefix ++ errMessage e)

/-- The try/catch load phase of `refresh`: each selected dataset is awaited
in turn; the first thrown error transfers control to the catch block,
skipping the remaining loads; success ends with status `Done.`.  The function
is total: the error is consumed here and never escapes. -/
def tryLoads (env : Env) (tog : Toggles) (s : AppState) : AppState :=
  match (if tog.mcd then loadBrand env brandMcd Key.mcd s else Except.ok s) with
  | Except.error pr => errorStatus pr.1 pr.2
  | Except.ok s1 =>
    match (if tog.starbucks then loadBrand env brandStarbucks Key.starbucks s1 else Except.ok s1) with
    | Except.error pr => errorStatus pr.1 pr.2
    | Except.ok s2 =>
      match (if tog.dg then loadBrand env brandDG Key.dg s2 else Except.ok s2) with
      | Except.error pr => errorStatus pr.1 pr.2
      | Except.ok s3 =>
        match (if tog.quakes then loadQuakes env s3 else Except.ok s3) with
        | Except.error pr => errorStatus pr.1 pr.2
        | Except.ok s4 => setStatus s4 strDone

/-- `refresh()`: the clearing phase followed by the guarded load phase. -/
def refresh (env : Env) (tog : Toggles) (s : AppState) : AppState :=
  tryLoads env tog { s with clusters := clearPhase tog s.clusters }

/-- The load step for one dataset key, exactly as `refresh` invokes it. -/
def loadOf (env : Env) : Key → AppState → Except (FetchError × AppState) AppState
  | Key.mcd => loadBrand env brandMcd Key.mcd
  | Key.starbucks => loadBrand env brandStarbucks Key.starbucks
  | Key.dg => loadBrand env brandDG Key.dg
  | Key.quakes => loadQuakes env

/-- Follows the spec's words (the refinement target for the load phase): run
the given datasets strictly in list order, each load's outcome observed
before the next begins; stop at the first failure with the error status,
otherwise finish with status `Done.`. -/
def specOrderedLoads (env : Env) : List Key → AppState → AppState
  | [], s => setStatus s strDone
  | k :: ks, s =>
    match loadOf env k s with
    | Except.error pr => errorStatus pr.1 pr.2
    | Except.ok s' => specOrderedLoads env ks s'

/-- Conditional sequencing helper bridging `tryLoads` and
`specOrderedLoads`. -/
def condSeq (env : Env) : List (Bool × Key) → AppState → AppState
  | [], s => setStatus s strDone
  | ck :: rest, s =>
    match (if ck.1 then loadOf env ck.2 s else Except.ok s) with
    | Except.error pr => errorStatus pr.1 pr.2
    | Except.ok s' => condSeq env rest s'

/-- Whether (and how) the fetch for a given dataset fails in environment
`env`; the outcome of a fetch does not depend on the page state. -/
def loadError (env : Env) : Key → Option FetchError
  | Key.mcd => errOf (fetchJSON (env.brandResp brandMcd))
  | Key.starbucks => errOf (fetchJSON (env.brandResp brandStarbucks))
  | Key.dg => errOf (fetchJSON (env.brandResp brandDG))
  | Key.quakes =>
    errOf (fetchJSON (env.quakesResp (effectiveHours env.hoursValue, effectiveMinmag env.minmagValue)))

/-! Concrete inputs used by the witness and counterexample theorems. -/

def ptSample : VisualPoint := VisualPoint.marker 1 2 none

def layerSample : LayerState := { markers := [ptSample], onMap := true }

def clustersSample : Clusters :=
  { mcd := layerSample, starbucks := layerSample, dg := layerSample, quakes := layerSample }

def stateSample : AppState := { clusters := clustersSample, status := strEmpty }

def strISE : String := "Internal Server Error"
def strOK : String := "OK"
def strBadJson : String := "Unexpected end of JSON input"
def strError500 : String := "Error: 500 Internal Server Error"
def strLineString : String := "LineString"
def strAbc : String := "abc"
def str36 : String := "36"

/-- A brand endpoint answering HTTP 500. -/
def resp500 : HttpResponse BrandGJ :=
  { ok := false, status := 500, statusText := strISE, body := Except.ok { features := some [] } }

/-- A quake endpoint answering an empty feature collection. -/
def quakeRespOk : HttpResponse QuakeGJ :=
  { ok := true, status := 200, statusText := strOK, body := Except.ok { features := some [] } }

/-- An environment in which every brand query fails with HTTP 500. -/
def envFail : Env :=
  { brandResp := fun _ => resp500
    quakesResp := fun _ => quakeRespOk
    hoursValue := strEmpty
    minmagValue := strEmpty }

def togAll : Toggles := { mcd := true, starbucks := true, dg := true, quakes := true }

def togOnlyMcd : Toggles := { mcd := true, starbucks := false, dg := false, quakes := false }

def err500 : FetchError := FetchError.queryFailed 500 strISE

/-- A non-Point geometry carrying numeric coordinate entries. -/
def geomLS : Geometry := { type := strLineString, lon := 10, lat := 20 }

def geomPt : Geometry := { type := strPoint, lon := 5, lat := 6 }

/-- A seismic feature with a non-Point geometry. -/
def quakeLS : QuakeFeature :=
  { geometry := some geomLS, properties := some { mag := some 3, place := none, time := none } }

def quakeNoGeom : QuakeFeature := { geometry := none, properties := none }

def brandNoGeom : BrandFeature := { geometry := none, properties := none }

/-- A brand feature with a non-Point geometry. -/
def brandLS : BrandFeature := { geometry := some geomLS, properties := none }

/-- A seismic feature with no properties at all. -/
def quakeNoProps : QuakeFeature := { geometry := some geomPt, properties := none }

/-- A seismic feature whose timestamp is present and equal to 0. -/
def quakeT0 : QuakeFeature :=
  { geometry := some geomPt, properties := some { mag := some 5, place := none, time := some 0 } }

/-- A seismic feature with a present, non-zero timestamp (1970-01-02). -/
def quakeT1 : QuakeFeature :=
  { geometry := some geomPt
    properties := some { mag := none, place := none, time := some 86400000 } }

/-- A brand feature whose name and id are present but empty (falsy). -/
def brandFalsy : BrandFeature :=
  { geometry := some geomPt, properties := some { name := some strEmpty, id := some strEmpty } }

def respNat500 : HttpResponse Nat :=
  { ok := false, status := 500, statusText := strISE, body := Except.ok 0 }

def respNatParse : HttpResponse Nat :=
  { ok := true, status := 200, statusText := strOK, body := Except.error strBadJson }

/-! Basic lemmas about the layer registry. -/

@[simp]
theorem get_set (c : Clusters) (k k' : Key) (v : LayerState) :
    (c.set k v).get k' = if k' = k then v else c.get k' := by
  cases k <;> cases k' <;> simp [Clusters.get, Clusters.set]

theorem set_set (c : Clusters) (k : Key) (v w : LayerState) :
    (c.set k v).set k w = c.set k w := by
  cases k <;> rfl

theorem set_get_eta (c : Clusters) (k : Key) : c.set k (c.get k) = c := by
  cases k <;> rfl

@[simp]
theorem setStatus_clusters (s : AppState) (m : String) : (setStatus s m).clusters = s.clusters :=
  rfl

@[simp]
theorem setStatus_status (s : AppState) (m : String) : (setStatus s m).status = m :=
  rfl

theorem layer_onMap_eta (x : LayerState) (hx : x.onMap = true) :
    ({ x with onMap := true } : LayerState) = x := by
  cases x
  simp only at hx
  simp [hx]

theorem clearLayer_eq (k : Key) (c : Clusters) : clearLayer k c = c.set k clearedLayer := by
  unfold clearLayer clearedLayer
  cases hb : (c.get k).onMap <;> simp [hb]

theorem ensureLayer_eq (k : Key) (c : Clusters) :
    ensureLayer k c = c.set k { c.get k with onMap := true } := by
  unfold ensureLayer
  cases hb : (c.get k).onMap
  · simp [hb]
  · simp only [hb, if_true]
    rw [layer_onMap_eta (c.get k) hb, set_get_eta]

/-! Bridging the source load phase to the ordered sequential runner. -/

theorem tryLoads_eq_condSeq (env : Env) (tog : Toggles) (s : AppState) :
    tryLoads env tog s =
      condSeq env
        [(tog.mcd, Key.mcd), (tog.starbucks, Key.starbucks), (tog.dg, Key.dg),
          (tog.quakes, Key.quakes)] s :=
  rfl

theorem condSeq_eq_spec (env : Env) (l : List (Bool × Key)) (s : AppState) :
    condSeq env l s =
      specOrderedLoads env ((l.filter (fun ck => ck.1)).map (fun ck => ck.2)) s := by
  induction l generalizing s with
  | nil => rfl
  | cons ck rest ih =>
    obtain ⟨b, k⟩ := ck
    cases b
    · simpa [condSeq, List.filter] using ih s
    · simp only [condSeq, List.filter, List.map, if_true, specOrderedLoads]
      cases h : loadOf env k s with
      | error pr => rfl
      | ok s' => exact ih s'

theorem filter_pairs_eq (tog : Toggles) :
    (([(tog.mcd, Key.mcd), (tog.starbucks, Key.starbucks), (tog.dg, Key.dg),
        (tog.quakes, Key.quakes)].filter (fun ck => ck.1)).map (fun ck => ck.2)) =
      toggledKeys tog := by
  obtain ⟨m, sb, d, q⟩ := tog
  cases m <;> cases sb <;> cases d <;> cases q <;> rfl

theorem tryLoads_eq_spec (env : Env) (tog : Toggles) (s : AppState) :
    tryLoads env tog s = specOrderedLoads env (toggledKeys tog) s := by
  rw [tryLoads_eq_condSeq, condSeq_eq_spec, filter_pairs_eq]

/-! What a single load step does to the state. -/

theorem loadBrand_run_error (env : Env) (brand : String) (key : Key) (s : AppState)
    (e : FetchError) (h : errOf (fetchJSON (env.brandResp brand)) = some e) :
    ∃ sE, loadBrand env brand key s = Except.error (e, sE) ∧ sE.clusters = s.clusters := by
  cases hf : fetchJSON (env.brandResp brand) with
  | error e' =>
    rw [hf] at h
    simp only [errOf, Option.some.injEq] at h
    subst h
    refine ⟨setStatus s (msgLoading brand), ?_, rfl⟩
    unfold loadBrand
    rw [hf]
  | ok gj =>
    rw [hf] at h
    simp [errOf] at h

theorem loadQuakes_run_error (env : Env) (s : AppState) (e : FetchError)
    (h : errOf (fetchJSON (env.quakesResp
        (effectiveHours env.hoursValue, effectiveMinmag env.minmagValue))) = some e) :
    ∃ sE, loadQuakes env s = Except.error (e, sE) ∧ sE.clusters = s.clusters := by
  cases hf : fetchJSON (env.quakesResp
      (effectiveHours env.hoursValue, effectiveMinmag env.minmagValue)) with
  | error e' =>
    rw [hf] at h
    simp only [errOf, Option.some.injEq] at h
    subst h
    refine ⟨setStatus s msgLoadingQuakes, ?_, rfl⟩
    simp [loadQuakes, hf]
  | ok gj =>
    rw [hf] at h
    simp [errOf] at h

theorem loadBrand_run_ok (env : Env) (brand : String) (key : Key) (s : AppState)
    (h : errOf (fetchJSON (env.brandResp brand)) = none) :
    ∃ s', loadBrand env brand key s = Except.ok s'
      ∧ (∃ pts, (s'.clusters.get key).markers = (s.clusters.get key).markers ++ pts
          ∧ (s'.clusters.get key).onMap = true)
      ∧ ∀ k', k' ≠ key → s'.clusters.get k' = s.clusters.get k' := by
  cases hf : fetchJSON (env.brandResp brand) with
  | error e' =>
    rw [hf] at h
    simp [errOf] at h
  | ok gj =>
    have hrun : loadBrand env brand key s =
        Except.ok (setStatus
          { s with clusters := ensureLayer key (addGeoJSONPointsToCluster gj key (some brandPopup) s.clusters) }
          (msgLoaded brand ((gj.features.getD []).length))) := by
      unfold loadBrand
      rw [hf]
      simp [setStatus]
    refine ⟨_, hrun,
      ⟨(gj.features.getD []).filterMap (brandFeaturePoint (some brandPopup)), ?_, ?_⟩, ?_⟩
    · simp [addGeoJSONPointsToCluster, ensureLayer_eq, get_set]
    · simp [addGeoJSONPointsToCluster, ensureLayer_eq, get_set]
    · intro k' hk'
      simp [addGeoJSONPointsToCluster, ensureLayer_eq, get_set, hk']

theorem loadQuakes_run_ok (env : Env) (s : AppState)
    (h : errOf (fetchJSON (env.quakesResp
        (effectiveHours env.hoursValue, effectiveMinmag env.minmagValue))) = none) :
    ∃ s', loadQuakes env s = Except.ok s'
      ∧ (∃ pts, (s'.clusters.get Key.quakes).markers
            = (s.clusters.get Key.quakes).markers ++ pts
          ∧ (s'.clusters.get Key.quakes).onMap = true)
      ∧ ∀ k', k' ≠ Key.quakes → s'.clusters.get k' = s.clusters.get k' := by
  cases hf : fetchJSON (env.quakesResp
      (effectiveHours env.hoursValue, effectiveMinmag env.minmagValue)) with
  | error e' =>
    rw [hf] at h
    simp [errOf] at h
  | ok gj =>
    have hrun : loadQuakes env s =
        Except.ok (setStatus
          { s with clusters := ensureLayer Key.quakes (addQuakePoints gj s.clusters) }
          (msgLoadedQuakes ((gj.features.getD []).length))) := by
      simp [loadQuakes, hf, setStatus]
    refine ⟨_, hrun, ⟨(gj.features.getD []).filterMap quakeFeaturePoint, ?_, ?_⟩, ?_⟩
    · simp [addQuakePoints, ensureLayer_eq, get_set]
    · simp [addQuakePoints, ensureLayer_eq, get_set]
    · intro k' hk'
      simp [addQuakePoints, ensureLayer_eq, get_set, hk']

theorem loadOf_run_error (env : Env) (k : Key) (s : AppState) (e : FetchError)
    (h : loadError env k = some e) :
    ∃ sE, loadOf env k s = Except.error (e, sE) ∧ sE.clusters = s.clusters := by
  cases k
  · exact loadBrand_run_error env brandMcd Key.mcd s e h
  · exact loadBrand_run_error env brandStarbucks Key.starbucks s e h
  · exact loadBrand_run_error env brandDG Key.dg s e h
  · exact loadQuakes_run_error env s e h

theorem loadOf_run_ok (env : Env) (k : Key) (s : AppState)
    (h : loadError env k = none) :
    ∃ s', loadOf env k s = Except.ok s'
      ∧ (∃ pts, (s'.clusters.get k).markers = (s.clusters.get k).markers ++ pts
          ∧ (s'.clusters.get k).onMap = true)
      ∧ ∀ k', k' ≠ k → s'.clusters.get k' = s.clusters.get k' := by
  cases k
  · exact loadBrand_run_ok env brandMcd Key.mcd s h
  · exact loadBrand_run_ok env brandStarbucks Key.starbucks s h
  · exact loadBrand_run_ok env brandDG Key.dg s h
  · exact loadQuakes_run_ok env s h

theorem toggledKeys_nodup (tog : Toggles) : (toggledKeys tog).Nodup :=
  List.Nodup.filter (toggle tog) (by decide : loadOrder.Nodup)

/-- Running the ordered loads on a sequence that splits as
`pre ++ failing :: post`, with every dataset in `pre` succeeding and the
failing one failing with `e`: the status is the error line, every group not
loaded in `pre` is exactly as it started, and the groups of `pre` keep their
freshly loaded, attached state. -/
theorem spec_fail (env : Env) (pre : List Key) (k : Key) (e : FetchError) (post : List Key)
    (s : AppState)
    (hpre : ∀ k' ∈ pre, loadError env k' = none)
    (hnd : (pre ++ k :: post).Nodup)
    (hk : loadError env k = some e) :
    (specOrderedLoads env (pre ++ k :: post) s).status = strErrorPrefix ++ errMessage e
    ∧ (∀ k', k' ∉ pre →
        (specOrderedLoads env (pre ++ k :: post) s).clusters.get k' = s.clusters.get k')
    ∧ (∀ k' ∈ pre, ∃ pts,
        ((specOrderedLoads env (pre ++ k :: post) s).clusters.get k').markers
          = (s.clusters.get k').markers ++ pts
        ∧ ((specOrderedLoads env (pre ++ k :: post) s).clusters.get k').onMap = true) := by
  induction pre generalizing s with
  | nil =>
    obtain ⟨sE, hrun, hcl⟩ := loadOf_run_error env k s e hk
    simp only [List.nil_append, specOrderedLoads, hrun]
    refine ⟨rfl, ?_, ?_⟩
    · intro k' _
      simp [errorStatus, hcl]
    · intro k' hk'
      exact absurd hk' (List.not_mem_nil k')
  | cons p pre' ih =>
    have hp : loadError env p = none := hpre p (List.mem_cons_self p pre')
    obtain ⟨s', hrun, ⟨pts, hmk, hom⟩, hother⟩ := loadOf_run_ok env p s hp
    have hnd' : (pre' ++ k :: post).Nodup := (List.nodup_cons.mp hnd).2
    have hpmem : p ∉ pre' ++ k :: post := (List.nodup_cons.mp hnd).1
    have hpre' : ∀ k' ∈ pre', loadError env k' = none := by
      intro k' hk'
      exact hpre k' (List.mem_cons_of_mem p hk')
    obtain ⟨ih1, ih2, ih3⟩ := ih s' hpre' hnd'
    have hstep : specOrderedLoads env ((p :: pre') ++ k :: post) s
        = specOrderedLoads env (pre' ++ k :: post) s' := by
      simp [specOrderedLoads, hrun]
    refine ⟨by rw [hstep]; exact ih1, ?_, ?_⟩
    · intro k' hk'
      rw [hstep]
      have hne : k' ≠ p := by
        intro hkp
        exact hk' (hkp ▸ List.mem_cons_self p pre')
      have : k' ∉ pre' := fun hm => hk' (List.mem_cons_of_mem p hm)
      rw [ih2 k' this, hother k' hne]
    · intro k' hk'
      rcases List.mem_cons.mp hk' with hkp | hkm
      · subst hkp
        have hnotpre : k' ∉ pre' := by
          intro hm
          exact hpmem (List.mem_append_left _ hm)
        refine ⟨pts, ?_, ?_⟩
        · rw [hstep, ih2 k' hnotpre, hmk]
        · rw [hstep, ih2 k' hnotpre]
          exact hom
      · have hne : k' ≠ p := by
          intro hkp
          subst hkp
          exact hpmem (List.mem_append_left _ hkm)
        obtain ⟨pts', hmk', hom'⟩ := ih3 k' hkm
        refine ⟨pts', ?_, ?_⟩
        · rw [hstep, hmk', hother k' hne]
        · rw [hstep]
          exact hom'

/-! The claims. -/

/-- C8: for every dataset key, calling `clearLayer` twice in a row leaves the
registry in the same state as calling it once — clearing an already-empty,
detached group is a no-op. -/
theorem clear_idempotent (k : Key) (c : Clusters) :
    clearLayer k (clearLayer k c) = clearLayer k c := by
  simp [clearLayer_eq, set_set]

/-- C4: at the start of every refresh, exactly the datasets whose toggle is
false are cleared (markers removed and group detached), and the groups of
toggled-true datasets are left untouched by the clearing phase, so their old
points persist until repopulated. -/
theorem clearing_phase_exact (tog : Toggles) (c : Clusters) (k : Key) :
    (toggle tog k = false → (clearPhase tog c).get k = clearedLayer)
    ∧ (toggle tog k = true → (clearPhase tog c).get k = c.get k) := by
  obtain ⟨m, sb, d, q⟩ := tog
  cases k <;> cases m <;> cases sb <;> cases d <;> cases q <;>
    simp [toggle, clearPhase, clearLayer_eq, get_set]

/-- C4 witness: with only brand-A toggled on, the clearing phase clears the
brand-B group and leaves the brand-A group of a concrete registry untouched. -/
theorem clearing_phase_witness :
    (clearPhase togOnlyMcd clustersSample).get Key.starbucks = clearedLayer
    ∧ (clearPhase togOnlyMcd clustersSample).get Key.mcd = clustersSample.get Key.mcd :=
  ⟨(clearing_phase_exact togOnlyMcd clustersSample Key.starbucks).1 rfl,
    (clearing_phase_exact togOnlyMcd clustersSample Key.mcd).2 rfl⟩

/-- C5: for every combination of toggle states the load phase of `refresh`
equals running exactly the toggled-true datasets through the sequential
runner `specOrderedLoads` in the fixed order brand-A, brand-B, brand-C,
seismic (`loadOrder`); the runner observes each load's success or failure
before the next load begins and stops at the first failure. -/
theorem load_order_sequential (env : Env) (tog : Toggles) (s : AppState) :
    tryLoads env tog s = specOrderedLoads env (toggledKeys tog) s
    ∧ toggledKeys tog = loadOrder.filter (toggle tog)
    ∧ refresh env tog s
        = specOrderedLoads env (toggledKeys tog) { s with clusters := clearPhase tog s.clusters } :=
  ⟨tryLoads_eq_spec env tog s, rfl, tryLoads_eq_spec env tog _⟩

/-- C1 (amended): the brand path produces no visual point — and adds no
marker to the cluster — for a feature whose geometry is missing or not of
type `Point`; the seismic path produces no point when the geometry is
missing.  (The original claim also asserted the geometry-type test on the
seismic path; the counterexample shows that path has no such test.) -/
theorem nonpoint_skip (popupFn : Option (BrandFeature → String)) (f : BrandFeature)
    (fq : QuakeFeature) :
    (f.geometry = none → brandFeaturePoint popupFn f = none)
    ∧ (∀ g, f.geometry = some g → g.type ≠ strPoint → brandFeaturePoint popupFn f = none)
    ∧ (∀ (gj : BrandGJ) (key : Key) (c : Clusters),
        (∀ f' ∈ gj.features.getD [], brandFeaturePoint popupFn f' = none) →
        addGeoJSONPointsToCluster gj key popupFn c = c)
    ∧ (fq.geometry = none → quakeFeaturePoint fq = none) := by
  refine ⟨?_, ?_, ?_, ?_⟩
  · intro h
    simp [brandFeaturePoint, h]
  · intro g hg ht
    simp [brandFeaturePoint, hg, ht]
  · intro gj key c hall
    have hnil : (gj.features.getD []).filterMap (brandFeaturePoint popupFn) = [] :=
      List.filterMap_eq_nil_iff.mpr hall
    unfold addGeoJSONPointsToCluster
    rw [hnil, List.append_nil]
    exact set_get_eta c key
  · intro h
    simp [quakeFeaturePoint, h]

/-- C1 witness: a geometry-less brand feature, a LineString brand feature and
a geometry-less seismic feature each produce no point. -/
theorem nonpoint_skip_witness :
    brandFeaturePoint (some brandPopup) brandNoGeom = none
    ∧ brandFeaturePoint (some brandPopup) brandLS = none
    ∧ quakeFeaturePoint quakeNoGeom = none :=
  ⟨(nonpoint_skip (some brandPopup) brandNoGeom quakeNoGeom).1 rfl,
    (nonpoint_skip (some brandPopup) brandLS quakeNoGeom).2.1 geomLS rfl (by decide),
    (nonpoint_skip (some brandPopup) brandNoGeom quakeNoGeom).2.2.2 rfl⟩

/-- C1 counterexample: a seismic feature with a non-Point geometry still
yields a visual point — only the brand path tests the geometry type. -/
theorem nonpoint_quake_counterexample :
    quakeLS.geometry = some geomLS ∧ geomLS.type ≠ strPoint
    ∧ (quakeFeaturePoint quakeLS).isSome = true :=
  ⟨rfl, by decide, rfl⟩

/-- C2 (amended): the defaults 24 and 2.5 are applied inside the seismic load
path itself, but only when the input field is empty (falsy); any non-empty
value goes through `Number`, so a non-numeric entry yields NaN rather than
the default. -/
theorem filter_defaults (v : String) :
    (v = strEmpty → effectiveHours v = some 24 ∧ effectiveMinmag v = some (5 / 2))
    ∧ (v ≠ strEmpty → effectiveHours v = strToNumber v ∧ effectiveMinmag v = strToNumber v) := by
  constructor
  · intro h
    subst h
    exact ⟨rfl, rfl⟩
  · intro h
    simp only [strEmpty] at h
    constructor <;> simp [effectiveHours, effectiveMinmag, h]

/-- C2 witness: the empty input yields the defaults; the numeric input `36`
passes through the `Number` coercion unchanged. -/
theorem filter_defaults_witness :
    (effectiveHours strEmpty = some 24 ∧ effectiveMinmag strEmpty = some (5 / 2))
    ∧ (effectiveHours str36 = strToNumber str36 ∧ effectiveMinmag str36 = strToNumber str36) :=
  ⟨(filter_defaults strEmpty).1 rfl, (filter_defaults str36).2 (by decide)⟩

/-- C2 counterexample: the non-numeric input `abc` is not coerced to the
defaults 24 and 2.5 — the query is issued with NaN. -/
theorem filter_defaults_counterexample :
    effectiveHours strAbc = none ∧ effectiveMinmag strAbc = none := by
  constructor <;> decide

/-- C6: for every present magnitude the rendered circle radius is `mag * 2`
clamped to the inclusive range [4, 16] (`Math.max(4, Math.min(16, mag * 2))`);
it is monotone non-decreasing in the magnitude and always within [4, 16];
magnitude 1 gives radius 4, magnitude 5 gives 10, magnitude 20 gives 16; and
the circle built for a feature carries exactly this radius. -/
theorem quake_radius_clamped (m m' : ℚ) (h : m ≤ m') :
    quakeRadius (some m) = some (max 4 (min 16 (m * 2)))
    ∧ (4 : ℚ) ≤ max 4 (min 16 (m * 2))
    ∧ max 4 (min 16 (m * 2)) ≤ 16
    ∧ max 4 (min 16 (m * 2)) ≤ max 4 (min 16 (m' * 2))
    ∧ quakeRadius (some 1) = some 4
    ∧ quakeRadius (some 5) = some 10
    ∧ quakeRadius (some 20) = some 16
    ∧ (∀ (f : QuakeFeature) (g : Geometry), f.geometry = some g →
        quakeFeaturePoint f
          = some (VisualPoint.circle g.lat g.lon (quakeRadius f.magProp) 1 (3 / 5)
              (quakePopup f))) := by
  refine ⟨rfl, le_max_left _ _, ?_, ?_, ?_, ?_, ?_, ?_⟩
  · exact max_le (by norm_num) (min_le_left _ _)
  · exact max_le_max le_rfl (min_le_min le_rfl (by linarith))
  · norm_num [quakeRadius, min_def, max_def]
  · norm_num [quakeRadius, min_def, max_def]
  · norm_num [quakeRadius, min_def, max_def]
  · intro f g hg
    simp [quakeFeaturePoint, hg]

/-- C6 witness: the clamp evaluated at magnitudes 1 and 5, with the
monotonicity hypothesis discharged concretely. -/
theorem quake_radius_witness :
    quakeRadius (some 1) = some 4
    ∧ max (4 : ℚ) (min 16 (1 * 2)) ≤ max 4 (min 16 (5 * 2)) :=
  ⟨(quake_radius_clamped 1 5 (by norm_num)).2.2.2.2.1,
    (quake_radius_clamped 1 5 (by norm_num)).2.2.2.1⟩

/-- C7: a non-ok transport response fails the query with `queryFailed`
carrying the numeric status code and the status text; an ok response whose
body does not parse fails with the distinct `parseFailed`; and every failure
a query produces is one of exactly these two kinds. -/
theorem fetch_error_kinds (α : Type) (r : HttpResponse α) :
    (r.ok = false → fetchJSON r = Except.error (FetchError.queryFailed r.status r.statusText))
    ∧ (∀ m, r.ok = true → r.body = Except.error m →
        fetchJSON r = Except.error (FetchError.parseFailed m))
    ∧ (∀ e, fetchJSON r = Except.error e →
        e = FetchError.queryFailed r.status r.statusText
        ∨ ∃ m, e = FetchError.parseFailed m) := by
  refine ⟨?_, ?_, ?_⟩
  · intro h
    simp [fetchJSON, h]
  · intro m hok hb
    simp [fetchJSON, hok, hb]
  · intro e he
    cases hok : r.ok with
    | false =>
      simp [fetchJSON, hok] at he
      exact Or.inl he.symm
    | true =>
      cases hb : r.body with
      | error m =>
        simp [fetchJSON, hok, hb] at he
        exact Or.inr ⟨m, he.symm⟩
      | ok v =>
        simp [fetchJSON, hok, hb] at he

/-- C7 witness: an HTTP 500 response fails with `queryFailed 500`, and an ok
response with a malformed body fails with `parseFailed`. -/
theorem fetch_error_kinds_witness :
    fetchJSON respNat500 = Except.error (FetchError.queryFailed 500 strISE)
    ∧ fetchJSON respNatParse = Except.error (FetchError.parseFailed strBadJson) :=
  ⟨(fetch_error_kinds Nat respNat500).1 rfl,
    (fetch_error_kinds Nat respNatParse).2.1 strBadJson rfl rfl⟩

/-- C9 (amended): in the seismic popup, an absent magnitude renders the
literal `?`; an absent place renders the empty string (never `undefined`);
the timestamp segment is empty when the timestamp is absent or falsy (the
code tests truthiness, so the epoch value 0 also renders empty) and is the
locale rendering otherwise; and the popup is composed of exactly these
segments. -/
theorem quake_popup_fallbacks (f : QuakeFeature) :
    (f.magProp = none → magText f = strQm)
    ∧ (f.placeProp = none → placeText f = strEmpty)
    ∧ (f.timeProp = none → timeText f = strEmpty)
    ∧ (f.timeProp = some 0 → timeText f = strEmpty)
    ∧ (∀ t, f.timeProp = some t → t ≠ 0 → timeText f = jsDateToLocaleString t)
    ∧ quakePopup f
        = "<b>M " ++ magText f ++ "</b><br>" ++ placeText f ++ "<br><small>" ++ timeText f
            ++ "</small>" := by
  refine ⟨?_, ?_, ?_, ?_, ?_, rfl⟩
  · intro h
    simp [magText, h]
  · intro h
    simp [placeText, h]
  · intro h
    simp [timeText, h]
  · intro h
    simp [timeText, h]
  · intro t ht hne
    simp [timeText, ht, hne]

/-- C9 witness: a feature with no properties renders `?`, empty place and
empty time; a present non-zero timestamp renders the locale string. -/
theorem quake_popup_fallbacks_witness :
    magText quakeNoProps = strQm
    ∧ placeText quakeNoProps = strEmpty
    ∧ timeText quakeNoProps = strEmpty
    ∧ timeText quakeT1 = jsDateToLocaleString 86400000 :=
  ⟨(quake_popup_fallbacks quakeNoProps).1 rfl,
    (quake_popup_fallbacks quakeNoProps).2.1 rfl,
    (quake_popup_fallbacks quakeNoProps).2.2.1 rfl,
    (quake_popup_fallbacks quakeT1).2.2.2.2.1 86400000 rfl (by decide)⟩

/-- C9 counterexample: a present timestamp equal to 0 renders the empty
string, not the (non-empty) locale rendering of epoch 0 — the claim's
"empty only when absent, otherwise locale-formatted" fails at that input. -/
theorem quake_popup_time_counterexample :
    quakeT0.timeProp = some 0
    ∧ timeText quakeT0 = strEmpty
    ∧ timeText quakeT0 ≠ jsDateToLocaleString 0 :=
  ⟨rfl, rfl, by decide⟩

/-- C10: in the brand popup the `Unknown` fallback applies to every falsy
name value — an absent name or a present-but-empty one — not only to an
absent name; likewise a falsy id renders as the empty string; a truthy name
or id renders as supplied. -/
theorem brand_popup_falsy (f : BrandFeature) :
    ((f.nameProp = none ∨ f.nameProp = some strEmpty) → brandNameText f = strUnknown)
    ∧ ((f.idProp = none ∨ f.idProp = some strEmpty) → brandIdText f = strEmpty)
    ∧ (∀ nm, f.nameProp = some nm → nm ≠ strEmpty → brandNameText f = nm)
    ∧ (∀ idv, f.idProp = some idv → idv ≠ strEmpty → brandIdText f = idv)
    ∧ brandPopup f
        = "<b>" ++ brandNameText f ++ "</b><br><small>" ++ brandIdText f ++ "</small>" := by
  refine ⟨?_, ?_, ?_, ?_, rfl⟩
  · rintro (h | h) <;> simp [brandNameText, jsOrStr, h, strEmpty]
  · rintro (h | h) <;> simp [brandIdText, jsOrStr, h, strEmpty]
  · intro nm h hne
    simp only [strEmpty] at hne
    simp [brandNameText, jsOrStr, h, hne]
  · intro idv h hne
    simp only [strEmpty] at hne
    simp [brandIdText, jsOrStr, h, hne]

/-- C10 witness: a feature whose name and id are present but empty renders
`Unknown` and the empty id line. -/
theorem brand_popup_falsy_witness :
    brandNameText brandFalsy = strUnknown ∧ brandIdText brandFalsy = strEmpty :=
  ⟨(brand_popup_falsy brandFalsy).1 (Or.inr rfl),
    (brand_popup_falsy brandFalsy).2.1 (Or.inr rfl)⟩

/-- C3: if, among the toggled datasets in load order, those before `k` all
succeed and the load of `k` fails with `e`, then the refresh ends with the
one-line status `Error: <message>` (the error is consumed by the catch
block — `refresh` is a total function, nothing escapes to the host page),
every dataset at or after the failing one keeps exactly its post-clearing
state (the remaining loads are skipped), and every earlier loaded dataset
keeps its freshly loaded, attached state. -/
theorem refresh_failfast (env : Env) (tog : Toggles) (s : AppState) (pre : List Key)
    (k : Key) (e : FetchError) (post : List Key)
    (hsplit : toggledKeys tog = pre ++ k :: post)
    (hpre : ∀ k' ∈ pre, loadError env k' = none)
    (hk : loadError env k = some e) :
    (refresh env tog s).status = strErrorPrefix ++ errMessage e
    ∧ (∀ k' ∈ k :: post,
        (refresh env tog s).clusters.get k' = (clearPhase tog s.clusters).get k')
    ∧ (∀ k' ∈ pre, ∃ pts,
        ((refresh env tog s).clusters.get k').markers
          = ((clearPhase tog s.clusters).get k').markers ++ pts
        ∧ ((refresh env tog s).clusters.get k').onMap = true) := by
  have hnd : (pre ++ k :: post).Nodup := hsplit ▸ toggledKeys_nodup tog
  have hrw : refresh env tog s
      = specOrderedLoads env (pre ++ k :: post)
          { s with clusters := clearPhase tog s.clusters } := by
    unfold refresh
    rw [tryLoads_eq_spec, hsplit]
  obtain ⟨h1, h2, h3⟩ :=
    spec_fail env pre k e post { s with clusters := clearPhase tog s.clusters } hpre hnd hk
  rw [hrw]
  refine ⟨h1, ?_, ?_⟩
  · intro k' hk'
    have hnp : k' ∉ pre := by
      rcases List.nodup_append.mp hnd with ⟨-, -, hdisj⟩
      intro hmem
      exact hdisj hmem hk'
    exact h2 k' hnp
  · intro k' hk'
    exact h3 k' hk'

/-- C3 witness: in an environment where every brand query returns HTTP 500
and all four datasets are toggled on, the refresh ends with status
`Error: 500 Internal Server Error` and the seismic group is exactly its
post-clearing state — neither loaded nor otherwise touched. -/
theorem refresh_failfast_witness :
    (refresh envFail togAll stateSample).status = strError500
    ∧ (refresh envFail togAll stateSample).clusters.get Key.quakes
        = (clearPhase togAll stateSample.clusters).get Key.quakes := by
  obtain ⟨h1, h2, h3⟩ :=
    refresh_failfast envFail togAll stateSample [] Key.mcd err500
      [Key.starbucks, Key.dg, Key.quakes] rfl
      (fun k' hk' => absurd hk' (List.not_mem_nil k')) rfl
  refine ⟨?_, h2 Key.quakes (by simp)⟩
  rw [h1]
  decide

end USAVibes
